import Mathlib

/-!
Shallow embedding of `vaunix_api` (the `vaunix_api/lsg.py` binding for the
Vaunix LabBrick signal generator DLL), together with proofs about the
binding's error policy, status decoding, buffer handling, singleton
construction, dispatch table and installer.
-/

namespace VaunixApi

/-- Modelled from the spec: the exception class `VNXError` lives in the package
root `vaunix_api/__init__.py`, which is not part of the sources at hand.  Per
the spec it is a structured failure carrying the originating symbol name (in
the message), the raw result and the arguments passed; the payload itself is
built entirely at the raise site in `lsg.py` (`parse_int_answer`). -/
structure VNXError where
  message : String
  answer : Int
  arguments : List Int
deriving DecidableEq, Repr

/-! ### Constants of `VNX_LSG_API` (lsg.py lines 113-139) -/

def MAX_NUM_DEVICES : Nat := 64

def MAX_MODELNAME : Nat := 32

def STATUS_OK : Nat := 0

def BAD_PARAMETER : Nat := 0x80010000

def BAD_HID_IO : Nat := 0x80020000

def DEVICE_NOT_READY : Nat := 0x80030000

def INVALID_DEVID : Nat := 0x80000000

def DEV_CONNECTED : Nat := 0x00000001

def DEV_OPENED : Nat := 0x00000002

def SWP_ACTIVE : Nat := 0x00000004

def SWP_UP : Nat := 0x00000008

def SWP_REPEAT : Nat := 0x00000010

def SWP_BIDIRECTIONAL : Nat := 0x00000020

def PLL_LOCKED : Nat := 0x00000040

def ERROR_BIT : Nat := 0x80000000

/-- Model of `ctypes.c_int(x).value`: the low 32 bits of `x` read back as a signed
32-bit integer.  Used by `parse_int_answer` on `DEVICE_NOT_READY`, and by the
`restype = int` conversion applied to every 32-bit native return value. -/
def c_int_value (x : Nat) : Int :=
  if x % 2 ^ 32 < 2 ^ 31 then ((x % 2 ^ 32 : Nat) : Int)
  else ((x % 2 ^ 32 : Nat) : Int) - 2 ^ 32

/-- Embedding of `VNX_LSG_API.parse_int_answer` (lsg.py lines 362-366): the `errcheck`
hook.  `answer` is the already-converted signed native result, `funcName` is
`func.__name__`, `arguments` the ctypes argument tuple.  Raising `VNXError`
is modelled as returning `Except.error`. -/
def parse_int_answer (answer : Int) (funcName : String) (arguments : List Int) :
    Except VNXError Int :=
  if answer ≤ c_int_value DEVICE_NOT_READY then
    .error ⟨"Error executing " ++ funcName, answer, arguments⟩
  else
    .ok answer

/-- The `get_functions` list of `VNX_LSG_API.__init__` (lsg.py lines 230-243):
every name in it gets `restype = int` and `errcheck = parse_int_answer`
(lines 249-253). -/
def get_functions : List String :=
  ["fnLSG_GetSerialNumber",
   "fnLSG_GetFrequency",
   "fnLSG_GetPowerLevel",
   "fnLSG_GetStartFrequency",
   "fnLSG_GetEndFrequency",
   "fnLSG_GetDwellTime",
   "fnLSG_GetFrequencyStep",
   "fnLSG_GetRF_On",
   "fnLSG_GetUseInternalRef",
   "fnLSG_GetPowerLevelAbs",
   "fnLSG_GetMaxPwr",
   "fnLSG_GetMinPwr",
   "fnLSG_GetMaxFreq",
   "fnLSG_GetMinFreq"]

/-- The native entry points to which `VNX_LSG_API.__init__` attaches
`errcheck = self.parse_int_answer` (lsg.py lines 162-253): the model-name
call (`fnLSG_GetModelNameA` on Windows, `fnLSG_GetModelName` elsewhere), the
explicitly registered calls, and everything in `get_functions`.
`fnLSG_SetTestMode`, `fnLSG_GetNumDevices`, `fnLSG_GetDevInfo` and
`fnLSG_GetDeviceStatus` are registered without an errcheck. -/
def checked_functions : List String :=
  ["fnLSG_GetModelNameA",
   "fnLSG_GetModelName",
   "fnLSG_InitDevice",
   "fnLSG_CloseDevice",
   "fnLSG_GetDLLVersion",
   "fnLSG_SetFrequency",
   "fnLSG_SetStartFrequency",
   "fnLSG_SetEndFrequency",
   "fnLSG_SetFrequencyStep",
   "fnLSG_SetDwellTime",
   "fnLSG_SetPowerLevel",
   "fnLSG_SetRFOn",
   "fnLSG_SetUseInternalRef",
   "fnLSG_SetSweepDirection",
   "fnLSG_SetSweepMode",
   "fnLSG_StartSweep",
   "fnLSG_SaveSettings"] ++ get_functions

/-- One integer-returning native call as dispatched by ctypes: the raw 32-bit
result `raw` is converted by the `restype = int` hook to a signed Python
integer, and then the `errcheck` hook `parse_int_answer` runs exactly when it
was registered for the symbol in `VNX_LSG_API.__init__`. -/
def invoke (funcName : String) (arguments : List Int) (raw : Nat) :
    Except VNXError Int :=
  if funcName ∈ checked_functions then
    parse_int_answer (c_int_value raw) funcName arguments
  else
    .ok (c_int_value raw)

/-! ### `LSGStatus` (lsg.py lines 65-104) -/

/-- Embedding of `LSGStatus.__init__`: wraps the raw status word.  The native status word
is a 32-bit bit-field; Python's `&` on the stored integer is modelled by
`Nat.land`. -/
structure LSGStatus where
  _raw_status : Nat
deriving DecidableEq, Repr

def LSGStatus.is_invalid (s : LSGStatus) : Bool :=
  (s._raw_status &&& INVALID_DEVID) != 0

def LSGStatus.is_connected (s : LSGStatus) : Bool :=
  (s._raw_status &&& DEV_CONNECTED) != 0

def LSGStatus.is_open (s : LSGStatus) : Bool :=
  (s._raw_status &&& DEV_OPENED) != 0

def LSGStatus.is_sweeping (s : LSGStatus) : Bool :=
  (s._raw_status &&& SWP_ACTIVE) != 0

def LSGStatus.is_sweeping_up (s : LSGStatus) : Bool :=
  (s._raw_status &&& SWP_UP) != 0

def LSGStatus.is_repeating_sweep (s : LSGStatus) : Bool :=
  (s._raw_status &&& SWP_REPEAT) != 0

def LSGStatus.is_sweeping_bidirectional (s : LSGStatus) : Bool :=
  (s._raw_status &&& SWP_BIDIRECTIONAL) != 0

def LSGStatus.is_pll_locked (s : LSGStatus) : Bool :=
  (s._raw_status &&& PLL_LOCKED) != 0

/-- Embedding of `LSGStatus.as_dict`: `dir(self)` lists the `is_*` methods in sorted
order, so the snapshot is the alphabetical association list of predicate
results. -/
def LSGStatus.as_dict (s : LSGStatus) : List (String × Bool) :=
  [("is_connected", s.is_connected),
   ("is_invalid", s.is_invalid),
   ("is_open", s.is_open),
   ("is_pll_locked", s.is_pll_locked),
   ("is_repeating_sweep", s.is_repeating_sweep),
   ("is_sweeping", s.is_sweeping),
   ("is_sweeping_bidirectional", s.is_sweeping_bidirectional),
   ("is_sweeping_up", s.is_sweeping_up)]

/-! ### Buffer-based calls (lsg.py lines 264-272) -/

/-- Embedding of `VNX_LSG_API.get_dev_info` (lsg.py lines 264-267): the native call fills
a 64-slot `DeviceIDArray` and returns the active count; the binding returns
`list(device_ids[:active_devices])`, the first `active_devices` slots of the
buffer (the slice never reads past the buffer's 64 slots). -/
def get_dev_info (device_ids : List Nat) (active_devices : Nat) : List Nat :=
  device_ids.take active_devices

/-- Model of `buffer.value` of a ctypes string buffer: the bytes before the first NUL
byte. -/
def c_string_value (buffer : List Nat) : List Nat :=
  buffer.takeWhile (fun b => b != 0)

/-- Model of `bytes.decode()` restricted to ASCII input, where UTF-8 decoding yields
exactly one character per byte; on a byte ≥ 128 the simple one-byte reading
is not valid, modelled as `none`. -/
def ascii_decode (bytes : List Nat) : Option (List Char) :=
  if bytes.all (fun b => b < 128) then
    some (bytes.map (fun b => Char.ofNat b))
  else
    none

/-- Embedding of `VNX_LSG_API.get_model_name` (lsg.py lines 269-272): a 32-byte string
buffer is filled by the native call, which reports the name length; the
binding returns `buffer.value[:name_len].decode()`. -/
def get_model_name (buffer : List Nat) (name_len : Nat) : Option (List Char) :=
  ascii_decode ((c_string_value buffer).take name_len)

/-! ### The default-instance singleton (lsg.py lines 111, 141-151) -/

/-- One constructed `VNX_LSG_API` instance; `library` identifies the loaded
`ctypes.CDLL` handle backing it. -/
structure LsgApi where
  library : Nat
deriving DecidableEq, Repr

/-- The process state the singleton machinery touches: the class attribute
`VNX_LSG_API._default` and how many times `ctypes.cdll.LoadLibrary` has run. -/
structure ProcState where
  _default : Option LsgApi
  loads : Nat
deriving DecidableEq, Repr

/-- Embedding of `VNX_LSG_API(library=None)` (lsg.py lines 147-151): with no explicit
handle, `ctypes.cdll.LoadLibrary` runs and the fresh handle backs the new
instance. -/
def mk_api (s : ProcState) : LsgApi × ProcState :=
  (⟨s.loads⟩, { s with loads := s.loads + 1 })

/-- Embedding of `VNX_LSG_API.default` (lsg.py lines 141-145): construct and cache the
instance on first use, return the cached instance afterwards. -/
def default_api (s : ProcState) : LsgApi × ProcState :=
  match s._default with
  | some api => (api, s)
  | none =>
    let p := mk_api s
    (p.1, { p.2 with _default := some p.1 })

/-- A process in which neither `VNX_LSG_API.default` nor the constructor has
run yet. -/
def fresh_state : ProcState := ⟨none, 0⟩

/-- Iterated state of `n` successive calls of `VNX_LSG_API.default`, threading the process
state. -/
def iterate_default : Nat → ProcState → ProcState
  | 0, s => s
  | n + 1, s => iterate_default n (default_api s).2

/-! ### The public dispatch table (lsg.py lines 255-360) -/

/-- Which native symbol each public method of `VNX_LSG_API` invokes,
transcribed from the method bodies.  `os_is_nt` selects the model-name
symbol exactly as `__init__` does (lsg.py lines 162-165). -/
def public_dispatch (os_is_nt : Bool) : List (String × String) :=
  [("set_test_mode", "fnLSG_SetTestMode"),
   ("get_dll_version", "fnLSG_GetDLLVersion"),
   ("get_num_devices", "fnLSG_GetNumDevices"),
   ("get_dev_info", "fnLSG_GetDevInfo"),
   ("get_model_name", if os_is_nt then "fnLSG_GetModelNameA" else "fnLSG_GetModelName"),
   ("get_serial_number", "fnLSG_GetSerialNumber"),
   ("init_device", "fnLSG_InitDevice"),
   ("close_device", "fnLSG_CloseDevice"),
   ("start_sweep", "fnLSG_StartSweep"),
   ("save_settings", "fnLSG_SaveSettings"),
   ("set_frequency", "fnLSG_SetFrequency"),
   ("get_frequency", "fnLSG_GetFrequency"),
   ("set_power_level", "fnLSG_SetPowerLevel"),
   ("get_power_level", "fnLSG_GetPowerLevelAbs"),
   ("set_rf_on", "fnLSG_SetRFOn"),
   ("get_rf_on", "fnLSG_GetRF_On"),
   ("set_start_frequency", "fnLSG_SetStartFrequency"),
   ("get_start_frequency", "fnLSG_GetStartFrequency"),
   ("set_end_frequency", "fnLSG_SetEndFrequency"),
   ("get_end_frequency", "fnLSG_GetEndFrequency"),
   ("set_frequency_step", "fnLSG_SetFrequencyStep"),
   ("get_frequency_step", "fnLSG_GetFrequencyStep"),
   ("set_dwell_time", "fnLSG_SetDwellTime"),
   ("get_dwell_time", "fnLSG_GetDwellTime"),
   ("set_use_internal_ref", "fnLSG_SetUseInternalRef"),
   ("get_use_internal_ref", "fnLSG_GetUseInternalRef"),
   ("set_sweep_direction", "fnLSG_SetSweepDirection"),
   ("set_sweep_mode", "fnLSG_SetSweepMode"),
   ("get_min_pwr", "fnLSG_GetMinPwr"),
   ("get_max_pwr", "fnLSG_GetMaxPwr"),
   ("get_min_freq", "fnLSG_GetMinFreq"),
   ("get_max_freq", "fnLSG_GetMaxFreq"),
   ("get_device_status", "fnLSG_GetDeviceStatus")]

/-- Embedding of `VNX_LSG_API.get_power_level` (lsg.py lines 299-301): dispatches to
`fnLSG_GetPowerLevelAbs` (the comment in the source notes that
`fnLSG_GetPowerLevel` "returns something strange").  `lib` maps a symbol
name and arguments to the raw 32-bit native result. -/
def get_power_level (lib : String → List Int → Nat) (device_id : Int) :
    Except VNXError Int :=
  invoke "fnLSG_GetPowerLevelAbs" [device_id] (lib "fnLSG_GetPowerLevelAbs" [device_id])

/-- Embedding of `VNX_LSG_API.get_device_status` (lsg.py lines 359-360): dispatches to
`fnLSG_GetDeviceStatus`, which `__init__` registers without an errcheck
(lsg.py lines 245-247). -/
def get_device_status (lib : String → List Int → Nat) (device_id : Int) :
    Except VNXError Int :=
  invoke "fnLSG_GetDeviceStatus" [device_id] (lib "fnLSG_GetDeviceStatus" [device_id])

/-! ### The installer `download_lsg_binaries` (lsg.py lines 21-62) -/

/-- Whether `pat` is an initial segment of `s`, on character lists. -/
def starts_with_chars : List Char → List Char → Bool
  | _, [] => true
  | [], _ :: _ => false
  | c :: cs, p :: ps => c == p && starts_with_chars cs ps

/-- Whether `pat` occurs as a contiguous segment of `s`, on character
lists. -/
def contains_chars : List Char → List Char → Bool
  | [], pat => pat.isEmpty
  | c :: cs, pat => starts_with_chars (c :: cs) pat || contains_chars cs pat

/-- Python's `pat in s` substring test. -/
def contains_substr (s pat : String) : Bool :=
  contains_chars s.data pat.data

/-- Python's `s.endswith(pat)` suffix test. -/
def str_ends_with (s pat : String) : Bool :=
  decide (pat.data.length ≤ s.data.length) &&
    s.data.drop (s.data.length - pat.data.length) == pat.data

/-- The ways `download_lsg_binaries` raises `RuntimeError`. -/
inductive InstallError where
  | unsupported_platform
  | sdk_not_found
  | dll_not_found
deriving DecidableEq, Repr

/-- Embedding of `download_lsg_binaries` (lsg.py lines 21-62).  `os_name` and `arch` are
`os.name` and `platform.architecture()[0]`; `outer` is the downloaded outer
zip as a listing of entry names, each paired with that entry read back as a
nested zip (a listing of inner names paired with their bytes).  The platform
check precedes the download, so an unsupported platform errors no matter
what the archive holds.  The `for ... break / else` loops take the first
outer name containing `"64Bit SDK"` and the first inner name ending in
`"vnx_fsynth.dll"`; the found binary's bytes are moved to the target, the
result here. -/
def download_lsg_binaries (os_name arch : String)
    (outer : List (String × List (String × List Nat))) :
    Except InstallError (List Nat) :=
  if os_name ≠ "nt" ∨ arch ≠ "64bit" then
    .error .unsupported_platform
  else
    match outer.find? (fun e => contains_substr e.1 "64Bit SDK") with
    | none => .error .sdk_not_found
    | some sdk =>
      match sdk.2.find? (fun e => str_ends_with e.1 "vnx_fsynth.dll") with
      | none => .error .dll_not_found
      | some dll => .ok dll.2

/-! ### Helper lemmas -/

lemma c_int_value_small {x : Nat} (h : x < 2 ^ 31) : c_int_value x = x := by
  unfold c_int_value
  have h32 : x % 2 ^ 32 = x := Nat.mod_eq_of_lt (by omega)
  rw [h32, if_pos h]

lemma invoke_checked {funcName : String} (arguments : List Int) (raw : Nat)
    (hmem : funcName ∈ checked_functions) :
    invoke funcName arguments raw = parse_int_answer (c_int_value raw) funcName arguments := by
  unfold invoke
  rw [if_pos hmem]

lemma parse_int_answer_error_iff (a : Int) (f : String) (args : List Int) :
    (∃ e, parse_int_answer a f args = .error e) ↔ a ≤ c_int_value DEVICE_NOT_READY := by
  unfold parse_int_answer
  by_cases h : a ≤ c_int_value DEVICE_NOT_READY
  · simp [h]
  · simp [h]

lemma c_int_value_le_threshold_iff (raw : Nat) (h : raw < 2 ^ 32) :
    c_int_value raw ≤ c_int_value DEVICE_NOT_READY ↔
      ERROR_BIT ≤ raw ∧ raw ≤ DEVICE_NOT_READY := by
  have hd : c_int_value DEVICE_NOT_READY = -2147287040 := by decide
  rw [hd]
  unfold c_int_value ERROR_BIT DEVICE_NOT_READY
  rw [Nat.mod_eq_of_lt h]
  split_ifs with h31 <;> omega

lemma c_int_value_lt (x : Nat) : x % 2 ^ 32 < 2 ^ 32 := Nat.mod_lt _ (by omega)

lemma land_two_pow_bne_zero (s k : Nat) : ((s &&& 2 ^ k) != 0) = s.testBit k := by
  rw [Nat.and_two_pow]
  cases h : s.testBit k
  · simp
  · simp [pow_eq_zero_iff]

/-! ### Claims -/

/-- C1: for every checked call (every native entry point registered with the
error-check policy `parse_int_answer`) and every raw result, if the result
satisfies the failure convention the call raises a `VNXError` carrying the
originating symbol name, the raw result and the exact arguments; otherwise
the call returns the raw integer unchanged as the success value. -/
theorem checked_call_error_policy (funcName : String) (arguments : List Int)
    (raw : Nat) (hmem : funcName ∈ checked_functions) :
    (c_int_value raw ≤ c_int_value DEVICE_NOT_READY →
      invoke funcName arguments raw =
        .error ⟨"Error executing " ++ funcName, c_int_value raw, arguments⟩) ∧
    (¬ c_int_value raw ≤ c_int_value DEVICE_NOT_READY →
      invoke funcName arguments raw = .ok (c_int_value raw)) := by
  rw [invoke_checked arguments raw hmem]
  unfold parse_int_answer
  constructor
  · intro h
    rw [if_pos h]
  · intro h
    rw [if_neg h]

/-- Witness for C1: `fnLSG_InitDevice` is checked and a raw result of 7 is
passed through unchanged. -/
theorem checked_call_error_policy_witness :
    ("fnLSG_InitDevice" ∈ checked_functions) ∧
    invoke "fnLSG_InitDevice" [1] 7 = .ok (c_int_value 7) :=
  ⟨by decide,
   (checked_call_error_policy "fnLSG_InitDevice" [1] 7 (by decide)).2 (by decide)⟩

/-- Counterexample to C2: the raw 32-bit value `0xFFFFFFFF` has bit 31 set,
yet the checked call `fnLSG_InitDevice` returning it does not raise: the
errcheck tests `answer <= c_int(DEVICE_NOT_READY).value`, and the signed
reading `-1` is above that threshold, so `-1` is passed through as a
success value. -/
theorem bit31_raise_counterexample :
    ((0xFFFFFFFF : Nat) &&& 0x80000000) ≠ 0 ∧
    (0xFFFFFFFF : Nat) < 2 ^ 32 ∧
    ("fnLSG_InitDevice" ∈ checked_functions) ∧
    invoke "fnLSG_InitDevice" [1] 0xFFFFFFFF = .ok (-1) :=
  ⟨by decide, by decide, by decide, by rfl⟩

/-- C2 (amended): a checked call returning the raw 32-bit value `v` raises
exactly when the signed reading of `v` is at most the signed reading of
`DEVICE_NOT_READY`, i.e. when `0x80000000 ≤ v ≤ 0x80030000`; bit 31 being
set is necessary but not sufficient. -/
theorem checked_call_raises_iff (funcName : String) (arguments : List Int)
    (raw : Nat) (hmem : funcName ∈ checked_functions) (hraw : raw < 2 ^ 32) :
    (∃ e, invoke funcName arguments raw = .error e) ↔
      ERROR_BIT ≤ raw ∧ raw ≤ DEVICE_NOT_READY := by
  rw [invoke_checked arguments raw hmem, parse_int_answer_error_iff,
    c_int_value_le_threshold_iff raw hraw]

/-- Witness for C2 (amended): `fnLSG_CloseDevice` returning the raw value
`BAD_HID_IO` raises, matching the interval characterisation. -/
theorem checked_call_raises_iff_witness :
    ("fnLSG_CloseDevice" ∈ checked_functions) ∧ ( BAD_HID_IO : Nat) < 2 ^ 32 ∧
    ((∃ e, invoke "fnLSG_CloseDevice" [5] BAD_HID_IO = .error e) ↔
      ERROR_BIT ≤ BAD_HID_IO ∧ BAD_HID_IO ≤ DEVICE_NOT_READY) :=
  ⟨by decide, by decide,
   checked_call_raises_iff "fnLSG_CloseDevice" [5] BAD_HID_IO (by decide) (by decide)⟩

/-- C3: each documented error code (`BAD_PARAMETER`, `BAD_HID_IO`,
`DEVICE_NOT_READY`), read as a signed 32-bit integer, satisfies the failure
test `answer <= signed(DEVICE_NOT_READY)`, so a checked call returning any
of them raises `VNXError`; `STATUS_OK` and every non-negative result are
passed through as success. -/
theorem error_codes_raise_ok_passes (funcName : String) (arguments : List Int)
    (hmem : funcName ∈ checked_functions) :
    c_int_value BAD_PARAMETER ≤ c_int_value DEVICE_NOT_READY ∧
    c_int_value BAD_HID_IO ≤ c_int_value DEVICE_NOT_READY ∧
    c_int_value DEVICE_NOT_READY ≤ c_int_value DEVICE_NOT_READY ∧
    (∃ e₁, invoke funcName arguments BAD_PARAMETER = .error e₁) ∧
    (∃ e₂, invoke funcName arguments BAD_HID_IO = .error e₂) ∧
    (∃ e₃, invoke funcName arguments DEVICE_NOT_READY = .error e₃) ∧
    invoke funcName arguments STATUS_OK = .ok 0 ∧
    (∀ raw : Nat, raw < 2 ^ 31 → invoke funcName arguments raw = .ok raw) := by
  have hpass : ∀ raw : Nat, raw < 2 ^ 31 → invoke funcName arguments raw = .ok raw := by
    intro raw hr
    rw [invoke_checked arguments raw hmem, c_int_value_small hr]
    unfold parse_int_answer
    rw [if_neg (by have hd : c_int_value DEVICE_NOT_READY = -2147287040 := by decide
                   rw [hd]; omega)]
  refine ⟨by decide, by decide, le_refl _, ?_, ?_, ?_, ?_, hpass⟩
  · rw [invoke_checked arguments BAD_PARAMETER hmem]
    exact (parse_int_answer_error_iff (c_int_value BAD_PARAMETER) funcName
      arguments).mpr (by decide)
  · rw [invoke_checked arguments BAD_HID_IO hmem]
    exact (parse_int_answer_error_iff (c_int_value BAD_HID_IO) funcName
      arguments).mpr (by decide)
  · rw [invoke_checked arguments DEVICE_NOT_READY hmem]
    exact (parse_int_answer_error_iff (c_int_value DEVICE_NOT_READY) funcName
      arguments).mpr (by decide)
  · have := hpass STATUS_OK (by decide)
    simpa [STATUS_OK] using this

/-- Witness for C3: `fnLSG_GetFrequency` returning `BAD_PARAMETER` raises
and a result of 42 passes through. -/
theorem error_codes_raise_ok_passes_witness :
    (∃ e₁, invoke "fnLSG_GetFrequency" [3] BAD_PARAMETER = .error e₁) ∧
    invoke "fnLSG_GetFrequency" [3] 42 = .ok 42 :=
  ⟨(error_codes_raise_ok_passes "fnLSG_GetFrequency" [3] (by decide)).2.2.2.1,
   (error_codes_raise_ok_passes "fnLSG_GetFrequency" [3] (by decide)).2.2.2.2.2.2.2
     42 (by decide)⟩

/-- C4: `get_device_status` is not run through the error-check policy: the
symbol carries no errcheck, every raw 32-bit status word — including words
with the high bit set — comes back as a success value, and the signed
conversion preserves the 32-bit word (`c_int_value raw` and `raw` agree
modulo `2 ^ 32`), so no call failure is ever raised. -/
theorem get_device_status_unchecked (lib : String → List Int → Nat)
    (device_id : Int) :
    "fnLSG_GetDeviceStatus" ∉ checked_functions ∧
    get_device_status lib device_id =
      .ok (c_int_value (lib "fnLSG_GetDeviceStatus" [device_id])) ∧
    (∀ raw : Nat, c_int_value raw % (2 ^ 32 : Int) = ((raw % 2 ^ 32 : Nat) : Int)) := by
  refine ⟨by decide, ?_, ?_⟩
  · unfold get_device_status invoke
    rw [if_neg (by decide)]
  · intro raw
    unfold c_int_value
    have := Nat.mod_lt raw (show 0 < 2 ^ 32 by omega)
    split_ifs with h31 <;> omega

/-- C5: each `LSGStatus` predicate is a pure single-bit mask test with the
layout bit 0 connected, bit 1 opened, bit 2 sweeping, bit 3 sweeping up,
bit 4 repeating, bit 5 bidirectional, bit 6 PLL locked, bit 31 invalid, and
two decoders built from the same raw status yield identical `as_dict`
snapshots. -/
theorem status_bit_layout (s : Nat) :
    (LSGStatus.mk s).is_connected = s.testBit 0 ∧
    (LSGStatus.mk s).is_open = s.testBit 1 ∧
    (LSGStatus.mk s).is_sweeping = s.testBit 2 ∧
    (LSGStatus.mk s).is_sweeping_up = s.testBit 3 ∧
    (LSGStatus.mk s).is_repeating_sweep = s.testBit 4 ∧
    (LSGStatus.mk s).is_sweeping_bidirectional = s.testBit 5 ∧
    (LSGStatus.mk s).is_pll_locked = s.testBit 6 ∧
    (LSGStatus.mk s).is_invalid = s.testBit 31 ∧
    (∀ d₁ d₂ : LSGStatus, d₁._raw_status = s → d₂._raw_status = s →
      d₁.as_dict = d₂.as_dict) := by
  refine ⟨?_, ?_, ?_, ?_, ?_, ?_, ?_, ?_, ?_⟩
  · simpa [LSGStatus.is_connected, DEV_CONNECTED] using land_two_pow_bne_zero s 0
  · simpa [LSGStatus.is_open, DEV_OPENED] using land_two_pow_bne_zero s 1
  · simpa [LSGStatus.is_sweeping, SWP_ACTIVE] using land_two_pow_bne_zero s 2
  · simpa [LSGStatus.is_sweeping_up, SWP_UP] using land_two_pow_bne_zero s 3
  · simpa [LSGStatus.is_repeating_sweep, SWP_REPEAT] using land_two_pow_bne_zero s 4
  · simpa [LSGStatus.is_sweeping_bidirectional, SWP_BIDIRECTIONAL] using
      land_two_pow_bne_zero s 5
  · simpa [LSGStatus.is_pll_locked, PLL_LOCKED] using land_two_pow_bne_zero s 6
  · simpa [LSGStatus.is_invalid, INVALID_DEVID] using land_two_pow_bne_zero s 31
  · intro d₁ d₂ h₁ h₂
    cases d₁
    cases d₂
    simp_all

/-- Witness for C5: two decoders built from the raw status 5 agree, and the
connected bit of 5 is set. -/
theorem status_bit_layout_witness :
    (LSGStatus.mk 5).is_connected = Nat.testBit 5 0 ∧
    (LSGStatus.mk 5).as_dict = (LSGStatus.mk 5).as_dict :=
  ⟨(status_bit_layout 5).1,
   (status_bit_layout 5).2.2.2.2.2.2.2.2 (LSGStatus.mk 5) (LSGStatus.mk 5) rfl rfl⟩

/-- C6: with the 64-slot buffer the binding allocates, `get_dev_info`
returns at most `active_devices` entries, at most 64 entries, and exactly
the first `active_devices` entries of the native-filled buffer in order. -/
theorem get_dev_info_spec (device_ids : List Nat) (active_devices : Nat)
    (hlen : device_ids.length = MAX_NUM_DEVICES) :
    (get_dev_info device_ids active_devices).length ≤ active_devices ∧
    (get_dev_info device_ids active_devices).length ≤ 64 ∧
    get_dev_info device_ids active_devices = device_ids.take active_devices := by
  unfold get_dev_info
  refine ⟨List.length_take_le _ _, ?_, rfl⟩
  rw [List.length_take, hlen]
  unfold MAX_NUM_DEVICES
  omega

/-- Witness for C6: a concrete 64-slot buffer with a reported count of 3
yields its first three entries. -/
theorem get_dev_info_spec_witness :
    (List.replicate 64 (0 : Nat)).length = MAX_NUM_DEVICES ∧
    (get_dev_info (List.replicate 64 (0 : Nat)) 3).length ≤ 3 := by
  have h : (List.replicate 64 (0 : Nat)).length = MAX_NUM_DEVICES := by
    simp [MAX_NUM_DEVICES]
  exact ⟨h, (get_dev_info_spec (List.replicate 64 0) 3 h).1⟩

/-- C7: the decoded model name never has more characters than the reported
name length, and an ASCII model name of 7 non-NUL bytes at the head of the
buffer with a reported length of 7 decodes to exactly 7 characters. -/
theorem get_model_name_spec (buffer : List Nat) (name_len : Nat) :
    (∀ cs, get_model_name buffer name_len = some cs → cs.length ≤ name_len) ∧
    (∀ name rest, buffer = name ++ rest → name.length = 7 →
      (∀ b ∈ name, 0 < b ∧ b < 128) →
      get_model_name buffer 7 = some (name.map (fun b => Char.ofNat b)) ∧
      (name.map (fun b => Char.ofNat b)).length = 7) := by
  constructor
  · intro cs h
    unfold get_model_name ascii_decode at h
    split at h
    · injection h with h'
      subst h'
      rw [List.length_map]
      exact List.length_take_le _ _
    · exact absurd h (by simp)
  · intro name rest hbuf h7 hbytes
    subst hbuf
    have hp : ∀ b ∈ name, (b != 0) = true := by
      intro b hb
      have := (hbytes b hb).1
      simp only [bne_iff_ne, ne_eq]
      omega
    have hv : c_string_value (name ++ rest) = name ++ c_string_value rest := by
      unfold c_string_value
      exact List.takeWhile_append_of_pos hp
    have htake : (c_string_value (name ++ rest)).take 7 = name := by
      rw [hv, List.take_append_of_le_length (by omega), ← h7, List.take_length]
    have hall : name.all (fun b => decide (b < 128)) = true := by
      rw [List.all_eq_true]
      intro b hb
      exact decide_eq_true (hbytes b hb).2
    constructor
    · unfold get_model_name ascii_decode
      rw [htake, if_pos hall]
    · rw [List.length_map, h7]

/-- Witness for C7: the 7-byte ASCII name `LSG-402` followed by NUL padding
decodes, at reported length 7, to exactly 7 characters. -/
theorem get_model_name_spec_witness :
    get_model_name ([76, 83, 71, 45, 52, 48, 50] ++ List.replicate 25 0) 7 =
      some (([76, 83, 71, 45, 52, 48, 50] : List Nat).map (fun b => Char.ofNat b)) ∧
    (([76, 83, 71, 45, 52, 48, 50] : List Nat).map (fun b => Char.ofNat b)).length = 7 :=
  (get_model_name_spec ([76, 83, 71, 45, 52, 48, 50] ++ List.replicate 25 0) 7).2
    [76, 83, 71, 45, 52, 48, 50] (List.replicate 25 0) rfl (by decide) (by decide)

lemma iterate_default_cached (n : Nat) (s : ProcState) (a : LsgApi)
    (h : s._default = some a) : iterate_default n s = s := by
  induction n with
  | zero => rfl
  | succ n ih =>
    unfold iterate_default
    have hstep : (default_api s).2 = s := by
      unfold default_api
      rw [h]
    rw [hstep]
    exact ih

/-- C8: `VNX_LSG_API.default` is idempotent — a second call returns the same
instance and leaves the process state unchanged — and starting from a fresh
process, any number of default constructions loads the dynamic library at
most once. -/
theorem default_api_singleton :
    (∀ s : ProcState,
      (default_api (default_api s).2).1 = (default_api s).1 ∧
      (default_api (default_api s).2).2 = (default_api s).2) ∧
    (∀ n : Nat, (iterate_default n fresh_state).loads ≤ 1) := by
  constructor
  · intro s
    rcases h : s._default with _ | api
    · simp [default_api, mk_api, h]
    · simp [default_api, h]
  · intro n
    cases n with
    | zero => exact Nat.zero_le 1
    | succ n =>
      unfold iterate_default
      have hstep : (default_api fresh_state).2 = ⟨some ⟨0⟩, 1⟩ := rfl
      rw [hstep, iterate_default_cached n _ ⟨0⟩ rfl]

/-- C9: `get_power_level` dispatches to the native `fnLSG_GetPowerLevelAbs`
entry point, which is error-checked; no public operation dispatches to
`fnLSG_GetPowerLevel`, and the value `get_power_level` returns depends only
on the `fnLSG_GetPowerLevelAbs` entry of the native library. -/
theorem get_power_level_aliases_abs :
    (∀ os_is_nt : Bool,
      ("get_power_level", "fnLSG_GetPowerLevelAbs") ∈ public_dispatch os_is_nt ∧
      ∀ p ∈ public_dispatch os_is_nt, p.2 ≠ "fnLSG_GetPowerLevel") ∧
    "fnLSG_GetPowerLevelAbs" ∈ checked_functions ∧
    (∀ (lib lib' : String → List Int → Nat) (device_id : Int),
      lib "fnLSG_GetPowerLevelAbs" = lib' "fnLSG_GetPowerLevelAbs" →
      get_power_level lib device_id = get_power_level lib' device_id) := by
  refine ⟨?_, by decide, ?_⟩
  · intro b
    cases b
    · exact ⟨by decide, by decide⟩
    · exact ⟨by decide, by decide⟩
  · intro lib lib' device_id h
    unfold get_power_level
    rw [h]

/-- Witness for C9: two libraries agreeing on `fnLSG_GetPowerLevelAbs` give
the same `get_power_level` result. -/
theorem get_power_level_aliases_abs_witness :
    get_power_level (fun _ _ => 7) 1 = get_power_level (fun _ _ => 7) 1 :=
  get_power_level_aliases_abs.2.2 (fun _ _ => 7) (fun _ _ => 7) 1 rfl

/-- C10: on a non-64-bit-Windows host the installer raises before any
network access (the outcome is the platform error whatever the archive
holds); on a 64-bit Windows host, an outer archive whose one entry carries
the `64Bit SDK` marker and contains one entry ending in `vnx_fsynth.dll`
yields exactly that binary's original bytes at the destination; and a
missing marker in either listing raises the corresponding fatal error. -/
theorem download_lsg_binaries_spec :
    (∀ (os_name arch : String) (outer : List (String × List (String × List Nat))),
      (os_name ≠ "nt" ∨ arch ≠ "64bit") →
      download_lsg_binaries os_name arch outer = .error .unsupported_platform) ∧
    (∀ (sdk_name dll_name : String) (bytes : List Nat),
      contains_substr sdk_name "64Bit SDK" = true →
      str_ends_with dll_name "vnx_fsynth.dll" = true →
      download_lsg_binaries "nt" "64bit" [(sdk_name, [(dll_name, bytes)])] =
        .ok bytes) ∧
    (∀ outer : List (String × List (String × List Nat)),
      (∀ e ∈ outer, contains_substr e.1 "64Bit SDK" = false) →
      download_lsg_binaries "nt" "64bit" outer = .error .sdk_not_found) ∧
    (∀ (sdk_name : String) (inner : List (String × List Nat)),
      contains_substr sdk_name "64Bit SDK" = true →
      (∀ e ∈ inner, str_ends_with e.1 "vnx_fsynth.dll" = false) →
      download_lsg_binaries "nt" "64bit" [(sdk_name, inner)] =
        .error .dll_not_found) := by
  have hplat : ¬(("nt" : String) ≠ "nt" ∨ ("64bit" : String) ≠ "64bit") := by simp
  refine ⟨?_, ?_, ?_, ?_⟩
  · intro os_name arch outer h
    unfold download_lsg_binaries
    rw [if_pos h]
  · intro sdk_name dll_name bytes hs hd
    unfold download_lsg_binaries
    rw [if_neg hplat]
    have h1 : List.find? (fun e => contains_substr e.1 "64Bit SDK")
        [(sdk_name, [(dll_name, bytes)])] = some (sdk_name, [(dll_name, bytes)]) :=
      List.find?_cons_of_pos _ hs
    have h2 : List.find? (fun e => str_ends_with e.1 "vnx_fsynth.dll")
        [(dll_name, bytes)] = some (dll_name, bytes) :=
      List.find?_cons_of_pos _ hd
    rw [h1]
    dsimp only
    rw [h2]
  · intro outer hnone
    unfold download_lsg_binaries
    rw [if_neg hplat]
    have h1 : List.find? (fun e => contains_substr e.1 "64Bit SDK") outer = none :=
      List.find?_eq_none.mpr (by simpa using hnone)
    rw [h1]
  · intro sdk_name inner hs hnone
    unfold download_lsg_binaries
    rw [if_neg hplat]
    have h1 : List.find? (fun e => contains_substr e.1 "64Bit SDK")
        [(sdk_name, inner)] = some (sdk_name, inner) :=
      List.find?_cons_of_pos _ hs
    have h2 : List.find? (fun e => str_ends_with e.1 "vnx_fsynth.dll") inner = none :=
      List.find?_eq_none.mpr (by simpa using hnone)
    rw [h1]
    dsimp only
    rw [h2]

/-- Witness for C10: a concrete mocked archive with the `64Bit SDK` marker
and a nested `vnx_fsynth.dll` entry installs that binary's bytes. -/
theorem download_lsg_binaries_spec_witness :
    contains_substr "LSG Apps/64Bit SDK/VNX_fsynth.zip" "64Bit SDK" = true ∧
    str_ends_with "x64/vnx_fsynth.dll" "vnx_fsynth.dll" = true ∧
    download_lsg_binaries "nt" "64bit"
      [("LSG Apps/64Bit SDK/VNX_fsynth.zip", [("x64/vnx_fsynth.dll", [77, 90, 144])])] =
      .ok [77, 90, 144] :=
  ⟨by decide, by decide,
   download_lsg_binaries_spec.2.1 "LSG Apps/64Bit SDK/VNX_fsynth.zip"
     "x64/vnx_fsynth.dll" [77, 90, 144] (by decide) (by decide)⟩

end VaunixApi
